import Mathlib

/-!
Verification of the breakout-room tracker's in-memory meeting-state engine
(`src/app.py`): identifier normalization, the calibration correlator's
FIFO matching, meeting lifecycle reset, the participant session tracker,
and the webhook routing/error boundary.

Python dictionaries are embedded as association lists where assignment
prepends a binding and lookup returns the most recent one; Python `None`
and the empty string are modelled by `Option` or by `""` exactly where the
source code itself only ever distinguishes truthiness.  Timestamps are
integer seconds.
-/

namespace ZoomTracker

/-- Python dict assignment `d[k] = v`: the new binding shadows any older one. -/
def aset {α : Type} (d : List (String × α)) (k : String) (v : α) : List (String × α) :=
  (k, v) :: d

/-- Python dict lookup `d.get(k)`: the most recent binding for `k`, if any. -/
def aget {α : Type} (d : List (String × α)) (k : String) : Option α :=
  (d.find? (fun p => p.1 == k)).map (fun p => p.2)

/-- Embeds `room_uuid.replace('{', '').replace('}', '')` from `add_room_mapping` /
`get_room_name`: every brace character is removed. -/
def strip_braces (s : String) : String :=
  String.mk (s.data.filter (fun c => c != '\x7b' && c != '\x7d'))

/-- Python `s.lower()` on the ASCII names/emails the tracker compares. -/
def str_lower (s : String) : String :=
  String.mk (s.data.map Char.toLower)

/-- Python slice `s[:n]`. -/
def str_take (s : String) (n : Nat) : String :=
  String.mk (s.data.take n)

/-- Python `len(s)`. -/
def str_len (s : String) : Nat :=
  s.data.length

/-- Python `s.strip()` (the names compared are space-separated words). -/
def str_trim (s : String) : String :=
  String.mk (((s.data.dropWhile (fun c => c == ' ')).reverse.dropWhile
    (fun c => c == ' ')).reverse)

def prefixB : List Char → List Char → Bool
  | [], _ => true
  | _ :: _, [] => false
  | a :: as, b :: bs => a == b && prefixB as bs

def infixB (needle : List Char) : List Char → Bool
  | [] => prefixB needle []
  | b :: bs => prefixB needle (b :: bs) || infixB needle bs

/-- Python `needle in hay` for strings: substring containment. -/
def contains_sub (needle hay : String) : Bool :=
  infixB needle.data hay.data

/-- Python `s.split()[0] if s else ''`: first whitespace-separated word. -/
def first_word (s : String) : String :=
  String.mk (((s.data.dropWhile (fun c => c == ' ')).takeWhile (fun c => c != ' ')))

/-- The scout-bot configuration (`SCOUT_BOT_NAME` / `SCOUT_BOT_EMAIL`). -/
structure Config where
  scout_bot_name : String
  scout_bot_email : String
deriving Repr, DecidableEq

/-- Embeds `is_scout_bot(participant_name, participant_email)` from `src/app.py`:
exact case-insensitive email match when both emails are non-empty, else a
case-insensitive substring check of the configured bot name in the observed
name. -/
def is_scout_bot (cfg : Config) (participant_name participant_email : String) : Bool :=
  if participant_email != "" && cfg.scout_bot_email != ""
      && str_lower participant_email == str_lower cfg.scout_bot_email then
    true
  else if participant_name != "" && cfg.scout_bot_name != ""
      && contains_sub (str_lower cfg.scout_bot_name) (str_lower participant_name) then
    true
  else
    false

/-- One entry of `participant_states`: the per-participant session record
created by `get_participant_state`. -/
structure PState where
  camera_on : Bool
  camera_on_since : Option Int
  current_room : Option String
  joined_at : Option Int
deriving Repr, DecidableEq

/-- The dict literal `get_participant_state` creates for a new participant. -/
def freshPState : PState :=
  { camera_on := false, camera_on_since := none, current_room := none, joined_at := none }

/-- One entry of `pending_room_moves`, as appended by `calibration_mapping`
and matched by `handle_breakout_room_join`. -/
structure PendingMove where
  room_name : String
  sdk_uuid : String
  timestamp : Int
  matched : Bool
  webhook_uuid : Option String
deriving Repr, DecidableEq

/-- The mutable `MeetingState` singleton of `src/app.py` (the fields the
event handlers and calibration endpoints read or write; the
`previous_meeting_*` bookkeeping feeds only the external QoS collector). -/
structure MeetingState where
  meeting_id : Option String
  meeting_uuid : String
  meeting_date : Option String
  uuid_to_name : List (String × String)
  name_to_uuid : List (String × String)
  calibration_complete : Bool
  calibrated_at : Option Int
  participant_states : List (String × PState)
  scout_bot_current_room : Option String
  pending_room_moves : List PendingMove
  calibration_in_progress : Bool
  calibration_mode : String
  calibration_participant_name : String
  calibration_participant_uuid : String
deriving Repr, DecidableEq

/-- Embeds `MeetingState.reset`. -/
def MeetingState.reset (_s : MeetingState) : MeetingState :=
  { meeting_id := none
    meeting_uuid := ""
    meeting_date := none
    uuid_to_name := []
    name_to_uuid := []
    calibration_complete := false
    calibrated_at := none
    participant_states := []
    scout_bot_current_room := none
    pending_room_moves := []
    calibration_in_progress := false
    calibration_mode := "scout_bot"
    calibration_participant_name := ""
    calibration_participant_uuid := "" }

/-- The state `MeetingState.__init__` leaves behind (it calls `reset`). -/
def initialMeetingState : MeetingState :=
  MeetingState.reset
    { meeting_id := none, meeting_uuid := "", meeting_date := none,
      uuid_to_name := [], name_to_uuid := [], calibration_complete := false,
      calibrated_at := none, participant_states := [],
      scout_bot_current_room := none, pending_room_moves := [],
      calibration_in_progress := false, calibration_mode := "scout_bot",
      calibration_participant_name := "", calibration_participant_uuid := "" }

/-- Embeds `MeetingState.set_meeting(meeting_id, meeting_uuid)`; `today` is
`datetime.utcnow().strftime('%Y-%m-%d')`.  A differing id or date resets the
whole state; otherwise only a missing `meeting_uuid` is backfilled.  (The
QoS trigger and the BigQuery delete in the reset branch are external
effects.) -/
def MeetingState.set_meeting (s : MeetingState) (today meeting_id meeting_uuid : String) :
    MeetingState :=
  let s1 :=
    if s.meeting_id ≠ some meeting_id ∨ s.meeting_date ≠ some today then
      { s.reset with
          meeting_id := some meeting_id
          meeting_uuid := meeting_uuid
          meeting_date := some today }
    else s
  if meeting_uuid ≠ "" ∧ s1.meeting_uuid = "" then
    { s1 with meeting_uuid := meeting_uuid }
  else s1

/-- Embeds `MeetingState.add_room_mapping(room_uuid, room_name)`: stores the raw
identifier, its brace-stripped form when different, and the lowercase form
of both; also records the reverse name-to-identifier entry. -/
def MeetingState.add_room_mapping (s : MeetingState) (room_uuid room_name : String) :
    MeetingState :=
  let d1 := aset s.uuid_to_name room_uuid room_name
  let n1 := aset s.name_to_uuid room_name room_uuid
  let stripped := strip_braces room_uuid
  let d2 := if stripped ≠ room_uuid then aset d1 stripped room_name else d1
  let d3 := aset d2 (str_lower room_uuid) room_name
  let d4 := aset d3 (str_lower stripped) room_name
  { s with uuid_to_name := d4, name_to_uuid := n1 }

/-- The dictionary update performed by
`MeetingState.add_webhook_room_mapping(webhook_uuid, room_name)`: the raw
identifier always, and its first-8-character short key only when that key is
not already bound. -/
def add_webhook_dict (d : List (String × String)) (webhook_uuid room_name : String) :
    List (String × String) :=
  if webhook_uuid ≠ "" ∧ room_name ≠ "" then
    let d1 := aset d webhook_uuid room_name
    let short_key := if 8 ≤ str_len webhook_uuid then str_take webhook_uuid 8 else webhook_uuid
    if aget d1 short_key = none then aset d1 short_key room_name else d1
  else d

/-- Embeds `MeetingState.add_webhook_room_mapping`. -/
def MeetingState.add_webhook_room_mapping (s : MeetingState) (webhook_uuid room_name : String) :
    MeetingState :=
  { s with uuid_to_name := add_webhook_dict s.uuid_to_name webhook_uuid room_name }

/-- Embeds `MeetingState.get_room_name(room_uuid)`: direct lookup first, then the
brace-stripped form. -/
def MeetingState.get_room_name (s : MeetingState) (room_uuid : String) : Option String :=
  if room_uuid = "" then none
  else
    match aget s.uuid_to_name room_uuid with
    | some n => some n
    | none => aget s.uuid_to_name (strip_braces room_uuid)

/-- Embeds `MeetingState.get_participant_state(participant_id)`: returns the
existing record, or creates and stores a fresh one. -/
def MeetingState.get_participant_state (s : MeetingState) (participant_id : String) :
    PState × MeetingState :=
  match aget s.participant_states participant_id with
  | some st => (st, s)
  | none =>
      (freshPState,
        { s with participant_states := aset s.participant_states participant_id freshPState })

/-- The per-record camera transition inside `update_camera_state`: set
`camera_on_since` exactly on a false-to-true flip, clear it exactly on a
true-to-false flip, otherwise leave the record unchanged. -/
def updateCameraFlag (st : PState) (camera_on : Bool) (timestamp : Int) : PState :=
  if camera_on && !st.camera_on then
    { st with camera_on := true, camera_on_since := some timestamp }
  else if !camera_on && st.camera_on then
    { st with camera_on := false, camera_on_since := none }
  else st

/-- Embeds `MeetingState.update_camera_state(participant_id, camera_on, timestamp)`. -/
def MeetingState.update_camera_state (s : MeetingState) (participant_id : String)
    (camera_on : Bool) (timestamp : Int) : MeetingState :=
  match s.get_participant_state participant_id with
  | (st, s1) =>
    { s1 with
        participant_states :=
          aset s1.participant_states participant_id (updateCameraFlag st camera_on timestamp) }

/-- The in-place mutation `state['joined_at'] = ...; state['current_room'] =
'Main Room'` performed by `handle_participant_joined`. -/
def MeetingState.mark_joined (s : MeetingState) (participant_id : String) (t : Int) :
    MeetingState :=
  match s.get_participant_state participant_id with
  | (st, s1) =>
    { s1 with
        participant_states :=
          aset s1.participant_states participant_id
            { st with joined_at := some t, current_room := some "Main Room" } }

/-- The in-place mutation `state['current_room'] = room_name` performed by
`handle_breakout_room_join` for a regular participant. -/
def MeetingState.set_participant_room (s : MeetingState) (participant_id room_name : String) :
    MeetingState :=
  match s.get_participant_state participant_id with
  | (st, s1) =>
    { s1 with
        participant_states :=
          aset s1.participant_states participant_id { st with current_room := some room_name } }

/-- Embeds `is_calibration_participant(participant_name, participant_email)`:
outside a calibration only the scout bot qualifies; during one, the scout
bot always qualifies, and in "Move Myself" mode the configured calibration
participant is also recognized by exact, substring (either direction) or
first-word name match on lowercased, trimmed names. -/
def is_calibration_participant (cfg : Config) (s : MeetingState)
    (participant_name participant_email : String) : Bool :=
  if !s.calibration_in_progress then
    is_scout_bot cfg participant_name participant_email
  else if is_scout_bot cfg participant_name participant_email then
    true
  else if s.calibration_mode == "self" && s.calibration_participant_name != "" then
    let cal_name := str_trim (str_lower s.calibration_participant_name)
    let webhook_name := str_trim (str_lower participant_name)
    if webhook_name == "" then false
    else if webhook_name == cal_name then true
    else if contains_sub cal_name webhook_name then true
    else if contains_sub webhook_name cal_name then true
    else
      let cal_first := if cal_name != "" then first_word cal_name else ""
      let webhook_first := if webhook_name != "" then first_word webhook_name else ""
      cal_first != "" && webhook_first != "" && cal_first == webhook_first
  else
    false

/-- The participant/meeting data `extract_participant_data` hands to every
handler (absent string fields are `""`; `event_time` is the parsed event
timestamp in seconds). -/
structure WebhookInput where
  participant_id : String
  participant_name : String
  participant_email : String
  meeting_id : String
  meeting_uuid : String
  room_uuid : String
  event_time : Int
deriving Repr, DecidableEq

/-- The claim-relevant fields of a row handed to persistence
(`insert_participant_event` for attendance events, `insert_camera_event`
for camera events); generated ids and formatted timestamps are omitted. -/
structure Row where
  event_type : String
  participant_id : String
  participant_name : String
  participant_email : String
  room_uuid : String
  room_name : String
  camera_on : Bool
  duration_seconds : Option Int
deriving Repr, DecidableEq

/-- Embeds `handle_participant_joined`: the scout bot and events without a meeting
id store nothing; otherwise the meeting is set, a `participant_joined` row
is built and the participant's session state records the join. -/
def handle_participant_joined (cfg : Config) (today : String) (s : MeetingState)
    (p : WebhookInput) : MeetingState × Option Row :=
  if is_scout_bot cfg p.participant_name p.participant_email then (s, none)
  else if p.meeting_id = "" then (s, none)
  else
    let s1 := s.set_meeting today p.meeting_id p.meeting_uuid
    let row : Row :=
      { event_type := "participant_joined"
        participant_id := p.participant_id
        participant_name := p.participant_name
        participant_email := p.participant_email
        room_uuid := ""
        room_name := "Main Room"
        camera_on := false
        duration_seconds := none }
    (s1.mark_joined p.participant_id p.event_time, some row)

/-- Embeds `handle_participant_left`. -/
def handle_participant_left (cfg : Config) (s : MeetingState) (p : WebhookInput) :
    MeetingState × Option Row :=
  if is_scout_bot cfg p.participant_name p.participant_email then (s, none)
  else if p.meeting_id = "" then (s, none)
  else
    (s, some
      { event_type := "participant_left"
        participant_id := p.participant_id
        participant_name := p.participant_name
        participant_email := p.participant_email
        room_uuid := ""
        room_name := ""
        camera_on := false
        duration_seconds := none })

/-- The scan `for move in pending_room_moves: if not move['matched']` of
`handle_breakout_room_join`: first unmatched pending move. -/
def find_first_unmatched : List PendingMove → Option PendingMove
  | [] => none
  | m :: rest => if m.matched then find_first_unmatched rest else some m

/-- The in-place mutation `matched_move['matched'] = True;
matched_move['webhook_uuid'] = room_uuid` applied to the first unmatched
pending move. -/
def mark_first_unmatched (room_uuid : String) : List PendingMove → List PendingMove
  | [] => []
  | m :: rest =>
      if m.matched then m :: mark_first_unmatched room_uuid rest
      else { m with matched := true, webhook_uuid := some room_uuid } :: rest

/-- The calibration branch of `handle_breakout_room_join`: take the room
name of the oldest unmatched pending move, falling back to
`scout_bot_current_room`; when both that name and the event's room
identifier are non-empty, mark the move matched and learn the webhook
identifier-to-name binding.  (The BigQuery mapping insert is an external
effect.) -/
def calibration_join_step (s : MeetingState) (room_uuid : String) : MeetingState :=
  let matched_move := find_first_unmatched s.pending_room_moves
  let room_name0 :=
    match matched_move with
    | some m => m.room_name
    | none => ""
  let room_name :=
    if room_name0 = "" then
      match s.scout_bot_current_room with
      | some r => r
      | none => ""
    else room_name0
  if room_name ≠ "" ∧ room_uuid ≠ "" then
    let s1 :=
      if matched_move.isSome then
        { s with pending_room_moves := mark_first_unmatched room_uuid s.pending_room_moves }
      else s
    s1.add_webhook_room_mapping room_uuid room_name
  else s

/-- Embeds `handle_breakout_room_join`: calibration-participant events feed the
correlator and store no attendance row; a regular participant's row gets
the mapped room name or the synthesized `Room-` prefix fallback. -/
def handle_breakout_room_join (cfg : Config) (today : String) (s : MeetingState)
    (p : WebhookInput) : MeetingState × Option Row :=
  if p.meeting_id = "" then (s, none)
  else
    let s1 := s.set_meeting today p.meeting_id p.meeting_uuid
    if is_calibration_participant cfg s1 p.participant_name p.participant_email then
      (calibration_join_step s1 p.room_uuid, none)
    else
      let room_name :=
        if p.room_uuid ≠ "" then
          let looked :=
            match s1.get_room_name p.room_uuid with
            | some n => n
            | none => ""
          if looked = "" then "Room-" ++ str_take p.room_uuid 8 else looked
        else "Unknown Room"
      let row : Row :=
        { event_type := "breakout_room_joined"
          participant_id := p.participant_id
          participant_name := p.participant_name
          participant_email := p.participant_email
          room_uuid := p.room_uuid
          room_name := room_name
          camera_on := false
          duration_seconds := none }
      (s1.set_participant_room p.participant_id room_name, some row)

/-- Embeds `handle_breakout_room_leave`. -/
def handle_breakout_room_leave (cfg : Config) (s : MeetingState) (p : WebhookInput) :
    MeetingState × Option Row :=
  if is_calibration_participant cfg s p.participant_name p.participant_email then (s, none)
  else if p.meeting_id = "" then (s, none)
  else
    let room_name1 :=
      if p.room_uuid ≠ "" then
        match s.get_room_name p.room_uuid with
        | some n => n
        | none => ""
      else "Unknown Room"
    let room_name :=
      if room_name1 = "" ∧ p.room_uuid ≠ "" then "Room-" ++ str_take p.room_uuid 8
      else room_name1
    (s, some
      { event_type := "breakout_room_left"
        participant_id := p.participant_id
        participant_name := p.participant_name
        participant_email := p.participant_email
        room_uuid := p.room_uuid
        room_name := room_name
        camera_on := false
        duration_seconds := none })

/-- Embeds `handle_camera_event(data, camera_on)`: on camera-off with a recorded
`camera_on_since`, the duration is the elapsed seconds clamped to 0 when
negative and discarded (`None`) when above 86400; the camera state is
updated after the row is built. -/
def handle_camera_event (cfg : Config) (s : MeetingState) (p : WebhookInput)
    (camera_on : Bool) : MeetingState × Option Row :=
  if is_scout_bot cfg p.participant_name p.participant_email then (s, none)
  else if p.meeting_id = "" then (s, none)
  else
    match s.get_participant_state p.participant_id with
    | (st, s1) =>
      let current_room :=
        match st.current_room with
        | some r => if r = "" then "Main Room" else r
        | none => "Main Room"
      let duration_seconds : Option Int :=
        if !camera_on then
          match st.camera_on_since with
          | some since =>
              let d := p.event_time - since
              if d < 0 then some 0
              else if 86400 < d then none
              else some d
          | none => none
        else none
      let row : Row :=
        { event_type := if camera_on then "camera_on" else "camera_off"
          participant_id := p.participant_id
          participant_name := p.participant_name
          participant_email := p.participant_email
          room_uuid := ""
          room_name := current_room
          camera_on := camera_on
          duration_seconds := duration_seconds }
      (s1.update_camera_state p.participant_id camera_on p.event_time, some row)

/-- The `/calibration/start` endpoint (`calibration_start`): requires a
meeting id (else HTTP 400), sets the meeting, clears the pending-move
queue, raises the in-progress flag and records the calibration actor. -/
def calibration_start (s : MeetingState) (today meeting_id meeting_uuid
    calibration_mode calibration_participant_name calibration_participant_uuid : String) :
    MeetingState × Nat :=
  if meeting_id = "" then (s, 400)
  else
    let s1 := s.set_meeting today meeting_id meeting_uuid
    ({ s1 with
        calibration_complete := false
        calibration_in_progress := true
        pending_room_moves := []
        calibration_mode := calibration_mode
        calibration_participant_name := calibration_participant_name
        calibration_participant_uuid := calibration_participant_uuid }, 200)

/-- One iteration of the `for room in room_mapping` loop of
`calibration_mapping`: on a non-empty identifier and name, record the SDK
mapping, point `scout_bot_current_room` at the room and append an
unmatched pending move. -/
def add_declared_room (now : Int) (s : MeetingState) (room : String × String) : MeetingState :=
  if room.1 ≠ "" ∧ room.2 ≠ "" then
    let s1 := s.add_room_mapping room.1 room.2
    { s1 with
        scout_bot_current_room := some room.2
        pending_room_moves := s1.pending_room_moves ++
          [{ room_name := room.2, sdk_uuid := room.1, timestamp := now,
             matched := false, webhook_uuid := none }] }
  else s

/-- The `/calibration/mapping` endpoint (`calibration_mapping`): requires a
meeting id and a non-empty mapping list (else HTTP 400); each declared room
is processed in list order.  (The BigQuery insert is an external effect.)
`rooms` carries `(room_uuid, room_name)` pairs and `now` the shared
`datetime.utcnow()` of the request. -/
def calibration_mapping (s : MeetingState) (today : String) (now : Int)
    (meeting_id meeting_uuid : String) (rooms : List (String × String)) :
    MeetingState × Nat :=
  if meeting_id = "" ∨ rooms = [] then (s, 400)
  else
    let s1 := s.set_meeting today meeting_id meeting_uuid
    (rooms.foldl (add_declared_room now) s1, 200)

/-- The classified webhook event types routed by the `/webhook` endpoint. -/
inductive WebhookEvent
  | urlValidation
  | participantJoined (p : WebhookInput)
  | participantLeft (p : WebhookInput)
  | breakoutJoin (p : WebhookInput)
  | breakoutLeave (p : WebhookInput)
  | videoOn (p : WebhookInput)
  | videoOff (p : WebhookInput)
  | meetingEnded
  | unrecognized (tag : String)

/-- A parsed inbound POST body: unparseable JSON, an empty body, or a
payload carrying a classified event; `handler_raises` records whether the
dispatched handler raises an exception inside the routing `try` block. -/
inductive RequestBody
  | unparseable
  | empty
  | payload (e : WebhookEvent) (handler_raises : Bool)

/-- Dispatch of one classified event to its handler, returning the updated
state and the attendance/camera row handed to persistence (if any).
`meeting.ended` only spawns the background QoS collection; unrecognized
events are logged and ignored. -/
def handle_event (cfg : Config) (today : String) (s : MeetingState) :
    WebhookEvent → MeetingState × Option Row
  | .urlValidation => (s, none)
  | .participantJoined p => handle_participant_joined cfg today s p
  | .participantLeft p => handle_participant_left cfg s p
  | .breakoutJoin p => handle_breakout_room_join cfg today s p
  | .breakoutLeave p => handle_breakout_room_leave cfg s p
  | .videoOn p => handle_camera_event cfg s p true
  | .videoOff p => handle_camera_event cfg s p false
  | .meetingEnded => (s, none)
  | .unrecognized _ => (s, none)

/-- The `/webhook` POST endpoint: unparseable JSON and empty bodies get
HTTP 400; URL validation answers before the routing `try` block; an
exception inside routing is caught and still acknowledged with HTTP 200;
every other payload, recognized or not, is acknowledged with HTTP 200. -/
def webhook (cfg : Config) (today : String) (s : MeetingState) :
    RequestBody → MeetingState × Nat
  | .unparseable => (s, 400)
  | .empty => (s, 400)
  | .payload e handler_raises =>
      match e with
      | .urlValidation => (s, 200)
      | _ =>
          if handler_raises then (s, 200)
          else ((handle_event cfg today s e).1, 200)

/-- Embeds `validate_and_clean_event`'s treatment of a `None` value stored under a
key ending in `_seconds` (such as `duration_seconds`): it is replaced by
the default 0 before the row reaches BigQuery. -/
def validate_clean_seconds (v : Option Int) : Option Int :=
  match v with
  | none => some 0
  | some n => some n

/-- The `duration_seconds` fix-up inside `insert_camera_event`, applied to
the output of `validate_and_clean_event`: only a still-absent value would
be persisted as SQL NULL. -/
def insert_camera_duration (v : Option Int) : Option Int :=
  match validate_clean_seconds v with
  | none => none
  | some n => some n

/-! ### Dictionary and lifecycle lemmas -/

theorem aget_aset_self {α : Type} (d : List (String × α)) (k : String) (v : α) :
    aget (aset d k v) k = some v := by
  simp [aget, aset, List.find?]

theorem aget_aset_ne {α : Type} (d : List (String × α)) (k k' : String) (v : α)
    (h : k' ≠ k) : aget (aset d k v) k' = aget d k' := by
  have hb : (k == k') = false := by
    simpa using fun e => h e.symm
  simp [aget, aset, List.find?, hb]

theorem set_meeting_meeting_id (s : MeetingState) (today mid muuid : String) :
    (s.set_meeting today mid muuid).meeting_id = some mid := by
  simp only [MeetingState.set_meeting]
  split
  · split <;> rfl
  · next h =>
      push_neg at h
      split <;> simp [h.1]

theorem set_meeting_meeting_date (s : MeetingState) (today mid muuid : String) :
    (s.set_meeting today mid muuid).meeting_date = some today := by
  simp only [MeetingState.set_meeting]
  split
  · split <;> rfl
  · next h =>
      push_neg at h
      split <;> simp [h.2]

/-- When the incoming id and date match the live meeting, `set_meeting`
changes at most the `meeting_uuid` field. -/
theorem set_meeting_noreset (s : MeetingState) (today mid muuid : String)
    (h1 : s.meeting_id = some mid) (h2 : s.meeting_date = some today) :
    ∃ u, s.set_meeting today mid muuid = { s with meeting_uuid := u } := by
  have hcond : ¬ (s.meeting_id ≠ some mid ∨ s.meeting_date ≠ some today) := by
    simp [h1, h2]
  simp only [MeetingState.set_meeting, if_neg hcond]
  split
  · exact ⟨muuid, rfl⟩
  · exact ⟨s.meeting_uuid, by cases s; rfl⟩

/-- The scout bot is attributed to the calibration actor in every state. -/
theorem scout_is_calibration (cfg : Config) (s : MeetingState) (n e : String)
    (h : is_scout_bot cfg n e = true) : is_calibration_participant cfg s n e = true := by
  unfold is_calibration_participant
  cases hc : s.calibration_in_progress <;> simp [hc, h]

/-- Embeds `add_webhook_room_mapping` binds the raw webhook identifier. -/
theorem add_webhook_dict_binds (d : List (String × String)) (u r : String)
    (hu : u ≠ "") (hr : r ≠ "") :
    aget (add_webhook_dict d u r) u = some r := by
  simp only [add_webhook_dict, if_pos (And.intro hu hr)]
  generalize (if 8 ≤ str_len u then str_take u 8 else u) = sk
  split
  · next hnone =>
      have hne : u ≠ sk := by
        intro e
        rw [← e, aget_aset_self] at hnone
        exact Option.some_ne_none r hnone
      rw [aget_aset_ne _ _ _ _ hne, aget_aset_self]
  · exact aget_aset_self d u r

/-- Embeds `add_webhook_room_mapping` never disturbs an already-bound key other
than the one it binds. -/
theorem add_webhook_dict_preserved (d : List (String × String)) (u r k : String)
    (hk : k ≠ u) (hsome : aget d k ≠ none) :
    aget (add_webhook_dict d u r) k = aget d k := by
  simp only [add_webhook_dict]
  split
  · have h1 : aget (aset d u r) k = aget d k := aget_aset_ne _ _ _ _ hk
    generalize (if 8 ≤ str_len u then str_take u 8 else u) = sk
    split
    · next hnone =>
        have hne : k ≠ sk := by
          intro e
          rw [← e, h1] at hnone
          exact hsome hnone
        rw [aget_aset_ne _ _ _ _ hne, h1]
    · exact h1
  · rfl

/-- One calibration-actor room-join during a live calibration with at
least one unmatched pending move: the oldest unmatched move is the one
matched, the event's identifier is bound to that move's room name, no
attendance row is stored, and only `meeting_uuid` may otherwise change. -/
theorem breakout_join_calib (cfg : Config) (today : String) (s : MeetingState)
    (p : WebhookInput) (m : PendingMove)
    (hmid : p.meeting_id ≠ "")
    (hid : s.meeting_id = some p.meeting_id)
    (hdate : s.meeting_date = some today)
    (hbot : is_scout_bot cfg p.participant_name p.participant_email = true)
    (hfind : find_first_unmatched s.pending_room_moves = some m)
    (hname : m.room_name ≠ "")
    (hu : p.room_uuid ≠ "") :
    ∃ u, handle_breakout_room_join cfg today s p =
      ({ s with
          meeting_uuid := u
          pending_room_moves := mark_first_unmatched p.room_uuid s.pending_room_moves
          uuid_to_name := add_webhook_dict s.uuid_to_name p.room_uuid m.room_name }, none) := by
  obtain ⟨u, hs1⟩ := set_meeting_noreset s today p.meeting_id p.meeting_uuid hid hdate
  have hcal : is_calibration_participant cfg { s with meeting_uuid := u }
      p.participant_name p.participant_email = true :=
    scout_is_calibration cfg _ _ _ hbot
  refine ⟨u, ?_⟩
  simp only [handle_breakout_room_join, if_neg hmid, hs1, hcal, if_true,
    calibration_join_step, MeetingState.add_webhook_room_mapping]
  have hfind' : find_first_unmatched
      ({ s with meeting_uuid := u } : MeetingState).pending_room_moves = some m := hfind
  rw [hfind']
  simp [hname, hu]

theorem calibration_start_meeting (s : MeetingState) (today mid muuid mode cn cu : String)
    (hmid : mid ≠ "") :
    (calibration_start s today mid muuid mode cn cu).1.pending_room_moves = []
    ∧ (calibration_start s today mid muuid mode cn cu).1.meeting_id = some mid
    ∧ (calibration_start s today mid muuid mode cn cu).1.meeting_date = some today := by
  simp only [calibration_start, if_neg hmid]
  refine ⟨by trivial, ?_, ?_⟩
  · exact set_meeting_meeting_id s today mid muuid
  · exact set_meeting_meeting_date s today mid muuid

theorem add_declared_room_proj (now : Int) (s : MeetingState) (a r : String)
    (ha : a ≠ "") (hr : r ≠ "") :
    (add_declared_room now s (a, r)).pending_room_moves =
      s.pending_room_moves ++
        [{ room_name := r, sdk_uuid := a, timestamp := now, matched := false,
           webhook_uuid := none }]
    ∧ (add_declared_room now s (a, r)).meeting_id = s.meeting_id
    ∧ (add_declared_room now s (a, r)).meeting_date = s.meeting_date := by
  simp only [add_declared_room, if_pos (And.intro ha hr)]
  exact ⟨rfl, rfl, rfl⟩

/-- The C1 scenario state after `start` and the three `declare_move`s for
rooms `R1, R2, R3` (SDK identifiers `A1, A2, A3`). -/
def c1_declared (s0 : MeetingState) (today : String) (now : Int)
    (mid muuid mode cn cu A1 A2 A3 R1 R2 R3 : String) : MeetingState :=
  (calibration_mapping (calibration_start s0 today mid muuid mode cn cu).1
    today now mid muuid [(A1, R1), (A2, R2), (A3, R3)]).1

/-- The C1 scenario state after the three calibration-actor join events
`p1, p2, p3` arrive in order. -/
def c1_final (cfg : Config) (s0 : MeetingState) (today : String) (now : Int)
    (mid muuid mode cn cu A1 A2 A3 R1 R2 R3 : String) (p1 p2 p3 : WebhookInput) :
    MeetingState :=
  (handle_breakout_room_join cfg today
    (handle_breakout_room_join cfg today
      (handle_breakout_room_join cfg today
        (c1_declared s0 today now mid muuid mode cn cu A1 A2 A3 R1 R2 R3) p1).1 p2).1 p3).1

theorem c1_declared_spec (s0 : MeetingState) (today : String) (now : Int)
    (mid muuid mode cn cu A1 A2 A3 R1 R2 R3 : String)
    (hmid : mid ≠ "") (hA1 : A1 ≠ "") (hA2 : A2 ≠ "") (hA3 : A3 ≠ "")
    (hR1 : R1 ≠ "") (hR2 : R2 ≠ "") (hR3 : R3 ≠ "") :
    (c1_declared s0 today now mid muuid mode cn cu A1 A2 A3 R1 R2 R3).pending_room_moves =
      [{ room_name := R1, sdk_uuid := A1, timestamp := now, matched := false,
         webhook_uuid := none },
       { room_name := R2, sdk_uuid := A2, timestamp := now, matched := false,
         webhook_uuid := none },
       { room_name := R3, sdk_uuid := A3, timestamp := now, matched := false,
         webhook_uuid := none }]
    ∧ (c1_declared s0 today now mid muuid mode cn cu A1 A2 A3 R1 R2 R3).meeting_id = some mid
    ∧ (c1_declared s0 today now mid muuid mode cn cu A1 A2 A3 R1 R2 R3).meeting_date
        = some today := by
  obtain ⟨hp, hid, hdate⟩ := calibration_start_meeting s0 today mid muuid mode cn cu hmid
  obtain ⟨u, hsm⟩ :=
    set_meeting_noreset (calibration_start s0 today mid muuid mode cn cu).1 today mid muuid
      hid hdate
  have hguard : ¬ (mid = "" ∨ ([(A1, R1), (A2, R2), (A3, R3)] : List (String × String)) = []) := by
    simp [hmid]
  simp only [c1_declared, calibration_mapping, if_neg hguard, List.foldl, hsm]
  obtain ⟨q1, i1, d1⟩ :=
    add_declared_room_proj now
      { (calibration_start s0 today mid muuid mode cn cu).1 with meeting_uuid := u }
      A1 R1 hA1 hR1
  obtain ⟨q2, i2, d2⟩ :=
    add_declared_room_proj now
      (add_declared_room now
        { (calibration_start s0 today mid muuid mode cn cu).1 with meeting_uuid := u }
        (A1, R1))
      A2 R2 hA2 hR2
  obtain ⟨q3, i3, d3⟩ :=
    add_declared_room_proj now
      (add_declared_room now
        (add_declared_room now
          { (calibration_start s0 today mid muuid mode cn cu).1 with meeting_uuid := u }
          (A1, R1))
        (A2, R2))
      A3 R3 hA3 hR3
  refine ⟨?_, ?_, ?_⟩
  · rw [q3, q2, q1]
    have hp' : ({ (calibration_start s0 today mid muuid mode cn cu).1 with
        meeting_uuid := u } : MeetingState).pending_room_moves = [] := hp
    rw [hp']
    rfl
  · rw [i3, i2, i1]
    exact hid
  · rw [d3, d2, d1]
    exact hdate

/-- C1: in every calibration session in which moves are declared for rooms
`R1, R2, R3` in that order (each appended as an unmatched pending move) and
three calibration-actor room-join events then arrive carrying the session
identifiers `p1.room_uuid, p2.room_uuid, p3.room_uuid` in that order, the
correlator matches the oldest unmatched pending move first: the queue ends
with the three moves matched in declaration order and the bindings are
exactly `U1↦R1`, `U2↦R2`, `U3↦R3`, for arbitrary declaration timestamps
and event times (timing gaps are irrelevant). -/
theorem fifo_correlation_correct
    (cfg : Config) (s0 : MeetingState) (today : String) (now : Int)
    (mid muuid mode cn cu A1 A2 A3 R1 R2 R3 : String) (p1 p2 p3 : WebhookInput)
    (hmid : mid ≠ "") (hA1 : A1 ≠ "") (hA2 : A2 ≠ "") (hA3 : A3 ≠ "")
    (hR1 : R1 ≠ "") (hR2 : R2 ≠ "") (hR3 : R3 ≠ "")
    (hm1 : p1.meeting_id = mid) (hm2 : p2.meeting_id = mid) (hm3 : p3.meeting_id = mid)
    (hb1 : is_scout_bot cfg p1.participant_name p1.participant_email = true)
    (hb2 : is_scout_bot cfg p2.participant_name p2.participant_email = true)
    (hb3 : is_scout_bot cfg p3.participant_name p3.participant_email = true)
    (hu1 : p1.room_uuid ≠ "") (hu2 : p2.room_uuid ≠ "") (hu3 : p3.room_uuid ≠ "")
    (hne21 : p2.room_uuid ≠ p1.room_uuid) (hne31 : p3.room_uuid ≠ p1.room_uuid)
    (hne32 : p3.room_uuid ≠ p2.room_uuid) :
    (c1_final cfg s0 today now mid muuid mode cn cu A1 A2 A3 R1 R2 R3
        p1 p2 p3).pending_room_moves =
      [{ room_name := R1, sdk_uuid := A1, timestamp := now, matched := true,
         webhook_uuid := some p1.room_uuid },
       { room_name := R2, sdk_uuid := A2, timestamp := now, matched := true,
         webhook_uuid := some p2.room_uuid },
       { room_name := R3, sdk_uuid := A3, timestamp := now, matched := true,
         webhook_uuid := some p3.room_uuid }]
    ∧ aget (c1_final cfg s0 today now mid muuid mode cn cu A1 A2 A3 R1 R2 R3
        p1 p2 p3).uuid_to_name p1.room_uuid = some R1
    ∧ aget (c1_final cfg s0 today now mid muuid mode cn cu A1 A2 A3 R1 R2 R3
        p1 p2 p3).uuid_to_name p2.room_uuid = some R2
    ∧ aget (c1_final cfg s0 today now mid muuid mode cn cu A1 A2 A3 R1 R2 R3
        p1 p2 p3).uuid_to_name p3.room_uuid = some R3 := by
  simp only [c1_final]
  obtain ⟨hpend, hid, hdate⟩ :=
    c1_declared_spec s0 today now mid muuid mode cn cu A1 A2 A3 R1 R2 R3
      hmid hA1 hA2 hA3 hR1 hR2 hR3
  set SD := c1_declared s0 today now mid muuid mode cn cu A1 A2 A3 R1 R2 R3 with hSD
  have hmid1 : p1.meeting_id ≠ "" := by rw [hm1]; exact hmid
  have hmid2 : p2.meeting_id ≠ "" := by rw [hm2]; exact hmid
  have hmid3 : p3.meeting_id ≠ "" := by rw [hm3]; exact hmid
  have hid1 : SD.meeting_id = some p1.meeting_id := by rw [hm1]; exact hid
  have hfind1 : find_first_unmatched SD.pending_room_moves
      = some ⟨R1, A1, now, false, none⟩ := by
    rw [hpend]; rfl
  obtain ⟨v1, hstep1⟩ :=
    breakout_join_calib cfg today SD p1 ⟨R1, A1, now, false, none⟩
      hmid1 hid1 hdate hb1 hfind1 hR1 hu1
  set S1 := (handle_breakout_room_join cfg today SD p1).1 with hS1
  have hS1eq : S1 = { SD with
      meeting_uuid := v1
      pending_room_moves := mark_first_unmatched p1.room_uuid SD.pending_room_moves
      uuid_to_name := add_webhook_dict SD.uuid_to_name p1.room_uuid R1 } := by
    rw [hS1, hstep1]
  have s1pend : S1.pending_room_moves =
      [⟨R1, A1, now, true, some p1.room_uuid⟩,
       ⟨R2, A2, now, false, none⟩, ⟨R3, A3, now, false, none⟩] := by
    rw [hS1eq]
    show mark_first_unmatched p1.room_uuid SD.pending_room_moves = _
    rw [hpend]
    simp [mark_first_unmatched]
  have s1utn : S1.uuid_to_name = add_webhook_dict SD.uuid_to_name p1.room_uuid R1 := by
    rw [hS1eq]
  have s1id : S1.meeting_id = some p2.meeting_id := by
    rw [hS1eq, hm2]; exact hid
  have s1date : S1.meeting_date = some today := by
    rw [hS1eq]; exact hdate
  have hfind2 : find_first_unmatched S1.pending_room_moves
      = some ⟨R2, A2, now, false, none⟩ := by
    rw [s1pend]; simp [find_first_unmatched]
  obtain ⟨v2, hstep2⟩ :=
    breakout_join_calib cfg today S1 p2 ⟨R2, A2, now, false, none⟩
      hmid2 s1id s1date hb2 hfind2 hR2 hu2
  set S2 := (handle_breakout_room_join cfg today S1 p2).1 with hS2
  have hS2eq : S2 = { S1 with
      meeting_uuid := v2
      pending_room_moves := mark_first_unmatched p2.room_uuid S1.pending_room_moves
      uuid_to_name := add_webhook_dict S1.uuid_to_name p2.room_uuid R2 } := by
    rw [hS2, hstep2]
  have s2pend : S2.pending_room_moves =
      [⟨R1, A1, now, true, some p1.room_uuid⟩,
       ⟨R2, A2, now, true, some p2.room_uuid⟩, ⟨R3, A3, now, false, none⟩] := by
    rw [hS2eq]
    show mark_first_unmatched p2.room_uuid S1.pending_room_moves = _
    rw [s1pend]
    simp [mark_first_unmatched]
  have s2utn : S2.uuid_to_name =
      add_webhook_dict (add_webhook_dict SD.uuid_to_name p1.room_uuid R1)
        p2.room_uuid R2 := by
    rw [hS2eq]
    show add_webhook_dict S1.uuid_to_name p2.room_uuid R2 = _
    rw [s1utn]
  have s2id : S2.meeting_id = some p3.meeting_id := by
    rw [hS2eq, hm3]
    show S1.meeting_id = some mid
    rw [s1id, hm2]
  have s2date : S2.meeting_date = some today := by
    rw [hS2eq]; exact s1date
  have hfind3 : find_first_unmatched S2.pending_room_moves
      = some ⟨R3, A3, now, false, none⟩ := by
    rw [s2pend]; simp [find_first_unmatched]
  obtain ⟨v3, hstep3⟩ :=
    breakout_join_calib cfg today S2 p3 ⟨R3, A3, now, false, none⟩
      hmid3 s2id s2date hb3 hfind3 hR3 hu3
  set S3 := (handle_breakout_room_join cfg today S2 p3).1 with hS3
  have hS3eq : S3 = { S2 with
      meeting_uuid := v3
      pending_room_moves := mark_first_unmatched p3.room_uuid S2.pending_room_moves
      uuid_to_name := add_webhook_dict S2.uuid_to_name p3.room_uuid R3 } := by
    rw [hS3, hstep3]
  have s3utn : S3.uuid_to_name =
      add_webhook_dict
        (add_webhook_dict (add_webhook_dict SD.uuid_to_name p1.room_uuid R1)
          p2.room_uuid R2)
        p3.room_uuid R3 := by
    rw [hS3eq]
    show add_webhook_dict S2.uuid_to_name p3.room_uuid R3 = _
    rw [s2utn]
  have b1 : aget (add_webhook_dict SD.uuid_to_name p1.room_uuid R1) p1.room_uuid
      = some R1 := add_webhook_dict_binds _ _ _ hu1 hR1
  have b1' : aget (add_webhook_dict (add_webhook_dict SD.uuid_to_name p1.room_uuid R1)
      p2.room_uuid R2) p1.room_uuid = some R1 := by
    rw [add_webhook_dict_preserved _ _ _ _ (Ne.symm hne21) (by rw [b1]; exact Option.some_ne_none R1)]
    exact b1
  have b2 : aget (add_webhook_dict (add_webhook_dict SD.uuid_to_name p1.room_uuid R1)
      p2.room_uuid R2) p2.room_uuid = some R2 := add_webhook_dict_binds _ _ _ hu2 hR2
  refine ⟨?_, ?_, ?_, ?_⟩
  · rw [hS3eq]
    show mark_first_unmatched p3.room_uuid S2.pending_room_moves = _
    rw [s2pend]
    simp [mark_first_unmatched]
  · rw [s3utn,
      add_webhook_dict_preserved _ _ _ _ (Ne.symm hne31) (by rw [b1']; exact Option.some_ne_none R1)]
    exact b1'
  · rw [s3utn,
      add_webhook_dict_preserved _ _ _ _ (Ne.symm hne32) (by rw [b2]; exact Option.some_ne_none R2)]
    exact b2
  · rw [s3utn]
    exact add_webhook_dict_binds _ _ _ hu3 hR3

/-- Concrete run of the C1 FIFO-correlation theorem. -/
theorem fifo_correlation_correct_witness :
    aget (c1_final ⟨"Scout Bot", ""⟩ initialMeetingState "2026-01-05" 0 "M1" "" "scout_bot" "" ""
        "a-1" "a-2" "a-3" "Room One" "Room Two" "Room Three"
        ⟨"sb", "Scout Bot", "", "M1", "", "u-1", 10⟩
        ⟨"sb", "Scout Bot", "", "M1", "", "u-2", 20⟩
        ⟨"sb", "Scout Bot", "", "M1", "", "u-3", 30⟩).uuid_to_name "u-1" = some "Room One"
    ∧ aget (c1_final ⟨"Scout Bot", ""⟩ initialMeetingState "2026-01-05" 0 "M1" "" "scout_bot" "" ""
        "a-1" "a-2" "a-3" "Room One" "Room Two" "Room Three"
        ⟨"sb", "Scout Bot", "", "M1", "", "u-1", 10⟩
        ⟨"sb", "Scout Bot", "", "M1", "", "u-2", 20⟩
        ⟨"sb", "Scout Bot", "", "M1", "", "u-3", 30⟩).uuid_to_name "u-2" = some "Room Two"
    ∧ aget (c1_final ⟨"Scout Bot", ""⟩ initialMeetingState "2026-01-05" 0 "M1" "" "scout_bot" "" ""
        "a-1" "a-2" "a-3" "Room One" "Room Two" "Room Three"
        ⟨"sb", "Scout Bot", "", "M1", "", "u-1", 10⟩
        ⟨"sb", "Scout Bot", "", "M1", "", "u-2", 20⟩
        ⟨"sb", "Scout Bot", "", "M1", "", "u-3", 30⟩).uuid_to_name "u-3"
        = some "Room Three" := by
  obtain ⟨hq, h1, h2, h3⟩ :=
    fifo_correlation_correct ⟨"Scout Bot", ""⟩ initialMeetingState "2026-01-05" 0
      "M1" "" "scout_bot" "" "" "a-1" "a-2" "a-3" "Room One" "Room Two" "Room Three"
      ⟨"sb", "Scout Bot", "", "M1", "", "u-1", 10⟩
      ⟨"sb", "Scout Bot", "", "M1", "", "u-2", 20⟩
      ⟨"sb", "Scout Bot", "", "M1", "", "u-3", 30⟩
      (by decide) (by decide) (by decide) (by decide) (by decide) (by decide) (by decide)
      rfl rfl rfl (by decide) (by decide) (by decide)
      (by decide) (by decide) (by decide) (by decide) (by decide) (by decide)
  exact ⟨h1, h2, h3⟩

/-! ### Meeting lifecycle: reset boundary and same-meeting idempotence -/

/-- The state mutations the event handlers and calibration endpoints
perform between two `set_meeting` calls: room bindings and participant
session-state updates. -/
inductive SessionOp
  | bindRoom (room_uuid room_name : String)
  | bindWebhook (webhook_uuid room_name : String)
  | touchParticipant (participant_id : String)
  | markJoined (participant_id : String) (t : Int)
  | setRoom (participant_id room_name : String)
  | updateCamera (participant_id : String) (camera_on : Bool) (t : Int)

def applyOp (s : MeetingState) : SessionOp → MeetingState
  | .bindRoom u n => s.add_room_mapping u n
  | .bindWebhook u n => s.add_webhook_room_mapping u n
  | .touchParticipant pid => (s.get_participant_state pid).2
  | .markJoined pid t => s.mark_joined pid t
  | .setRoom pid r => s.set_participant_room pid r
  | .updateCamera pid b t => s.update_camera_state pid b t

def applyOps (s : MeetingState) (ops : List SessionOp) : MeetingState :=
  ops.foldl applyOp s

theorem applyOp_meeting (s : MeetingState) (op : SessionOp) :
    (applyOp s op).meeting_id = s.meeting_id
    ∧ (applyOp s op).meeting_date = s.meeting_date := by
  cases op with
  | bindRoom u n => exact ⟨rfl, rfl⟩
  | bindWebhook u n => exact ⟨rfl, rfl⟩
  | touchParticipant pid =>
      simp only [applyOp, MeetingState.get_participant_state]
      cases aget s.participant_states pid <;> exact ⟨rfl, rfl⟩
  | markJoined pid t =>
      simp only [applyOp, MeetingState.mark_joined, MeetingState.get_participant_state]
      cases aget s.participant_states pid <;> exact ⟨rfl, rfl⟩
  | setRoom pid r =>
      simp only [applyOp, MeetingState.set_participant_room, MeetingState.get_participant_state]
      cases aget s.participant_states pid <;> exact ⟨rfl, rfl⟩
  | updateCamera pid b t =>
      simp only [applyOp, MeetingState.update_camera_state, MeetingState.get_participant_state]
      cases aget s.participant_states pid <;> exact ⟨rfl, rfl⟩

theorem applyOps_meeting (ops : List SessionOp) (s : MeetingState) :
    (applyOps s ops).meeting_id = s.meeting_id
    ∧ (applyOps s ops).meeting_date = s.meeting_date := by
  induction ops generalizing s with
  | nil => exact ⟨rfl, rfl⟩
  | cons op rest ih =>
      obtain ⟨ih1, ih2⟩ := ih (applyOp s op)
      obtain ⟨h1, h2⟩ := applyOp_meeting s op
      constructor
      · show (applyOps (applyOp s op) rest).meeting_id = s.meeting_id
        rw [ih1, h1]
      · show (applyOps (applyOp s op) rest).meeting_date = s.meeting_date
        rw [ih2, h2]

/-- C4: after `set_meeting(A)` on day `D`, any sequence of room bindings
and participant-state operations, then `set_meeting(B)` on the same day
with `B ≠ A`, the participant-state map is empty and every room-identifier
lookup returns absent. -/
theorem reset_boundary (s0 : MeetingState) (today A B ua ub : String)
    (ops : List SessionOp) (hAB : B ≠ A) :
    ((applyOps (s0.set_meeting today A ua) ops).set_meeting today B ub).participant_states = []
    ∧ ∀ u : String,
        ((applyOps (s0.set_meeting today A ua) ops).set_meeting today B ub).get_room_name u
          = none := by
  have hid : (applyOps (s0.set_meeting today A ua) ops).meeting_id = some A := by
    rw [(applyOps_meeting ops (s0.set_meeting today A ua)).1]
    exact set_meeting_meeting_id s0 today A ua
  have key : ∀ t : MeetingState, t.meeting_id = some A →
      (t.set_meeting today B ub).participant_states = []
      ∧ ∀ u : String, (t.set_meeting today B ub).get_room_name u = none := by
    intro t ht
    have hcond : t.meeting_id ≠ some B ∨ t.meeting_date ≠ some today :=
      Or.inl (by rw [ht]; exact fun h => (Ne.symm hAB) (Option.some_inj.mp h))
    simp only [MeetingState.set_meeting, if_pos hcond]
    constructor
    · split <;> rfl
    · intro u
      split <;>
        (by_cases hu : u = "" <;>
          simp [MeetingState.get_room_name, hu, aget, List.find?, MeetingState.reset])
  exact key _ hid

/-- Concrete run of the C4 reset-boundary theorem. -/
theorem reset_boundary_witness :
    ((applyOps (initialMeetingState.set_meeting "2026-01-05" "A" "") [.bindRoom "u" "Room X",
        .touchParticipant "p7"]).set_meeting "2026-01-05" "B" "").participant_states = []
    ∧ ((applyOps (initialMeetingState.set_meeting "2026-01-05" "A" "") [.bindRoom "u" "Room X",
        .touchParticipant "p7"]).set_meeting "2026-01-05" "B" "").get_room_name "u" = none := by
  obtain ⟨h1, h2⟩ :=
    reset_boundary initialMeetingState "2026-01-05" "A" "B" "" ""
      [.bindRoom "u" "Room X", .touchParticipant "p7"] (by decide)
  exact ⟨h1, h2 "u"⟩

theorem set_meeting_same_fields (s : MeetingState) (today mid muuid : String)
    (h1 : s.meeting_id = some mid) (h2 : s.meeting_date = some today) :
    (s.set_meeting today mid muuid).uuid_to_name = s.uuid_to_name
    ∧ (s.set_meeting today mid muuid).name_to_uuid = s.name_to_uuid
    ∧ (s.set_meeting today mid muuid).participant_states = s.participant_states
    ∧ (s.set_meeting today mid muuid).pending_room_moves = s.pending_room_moves
    ∧ (s.set_meeting today mid muuid).calibration_complete = s.calibration_complete
    ∧ (s.set_meeting today mid muuid).calibrated_at = s.calibrated_at
    ∧ (s.set_meeting today mid muuid).calibration_in_progress = s.calibration_in_progress
    ∧ (s.set_meeting today mid muuid).calibration_mode = s.calibration_mode
    ∧ (s.set_meeting today mid muuid).calibration_participant_name
        = s.calibration_participant_name
    ∧ (s.set_meeting today mid muuid).scout_bot_current_room = s.scout_bot_current_room
    ∧ (s.set_meeting today mid muuid).meeting_id = s.meeting_id
    ∧ (s.set_meeting today mid muuid).meeting_date = s.meeting_date
    ∧ (s.set_meeting today mid muuid).meeting_uuid =
        (if muuid ≠ "" ∧ s.meeting_uuid = "" then muuid else s.meeting_uuid) := by
  have hcond : ¬ (s.meeting_id ≠ some mid ∨ s.meeting_date ≠ some today) := by
    simp [h1, h2]
  simp only [MeetingState.set_meeting, if_neg hcond]
  split <;> simp_all

/-- C5: a second `set_meeting` with the same meeting id on the same day is
a no-op beyond possibly backfilling a previously-unknown `meeting_uuid`:
no room mapping, participant session state or calibration state is
cleared. -/
theorem set_meeting_same_idempotent (s0 : MeetingState) (today A ua ub : String) :
    ((s0.set_meeting today A ua).set_meeting today A ub).uuid_to_name
        = (s0.set_meeting today A ua).uuid_to_name
    ∧ ((s0.set_meeting today A ua).set_meeting today A ub).name_to_uuid
        = (s0.set_meeting today A ua).name_to_uuid
    ∧ ((s0.set_meeting today A ua).set_meeting today A ub).participant_states
        = (s0.set_meeting today A ua).participant_states
    ∧ ((s0.set_meeting today A ua).set_meeting today A ub).pending_room_moves
        = (s0.set_meeting today A ua).pending_room_moves
    ∧ ((s0.set_meeting today A ua).set_meeting today A ub).calibration_complete
        = (s0.set_meeting today A ua).calibration_complete
    ∧ ((s0.set_meeting today A ua).set_meeting today A ub).calibrated_at
        = (s0.set_meeting today A ua).calibrated_at
    ∧ ((s0.set_meeting today A ua).set_meeting today A ub).calibration_in_progress
        = (s0.set_meeting today A ua).calibration_in_progress
    ∧ ((s0.set_meeting today A ua).set_meeting today A ub).calibration_mode
        = (s0.set_meeting today A ua).calibration_mode
    ∧ ((s0.set_meeting today A ua).set_meeting today A ub).calibration_participant_name
        = (s0.set_meeting today A ua).calibration_participant_name
    ∧ ((s0.set_meeting today A ua).set_meeting today A ub).scout_bot_current_room
        = (s0.set_meeting today A ua).scout_bot_current_room
    ∧ ((s0.set_meeting today A ua).set_meeting today A ub).meeting_id
        = (s0.set_meeting today A ua).meeting_id
    ∧ ((s0.set_meeting today A ua).set_meeting today A ub).meeting_date
        = (s0.set_meeting today A ua).meeting_date
    ∧ ((s0.set_meeting today A ua).set_meeting today A ub).meeting_uuid =
        (if ub ≠ "" ∧ (s0.set_meeting today A ua).meeting_uuid = "" then ub
         else (s0.set_meeting today A ua).meeting_uuid) :=
  set_meeting_same_fields (s0.set_meeting today A ua) today A ub
    (set_meeting_meeting_id s0 today A ua) (set_meeting_meeting_date s0 today A ua)

/-! ### Calibration-actor exclusion and webhook error boundary -/

/-- C6: an inbound event attributed to the calibration actor by
`is_scout_bot` (case-insensitive exact email match, or the configured bot
name as a case-insensitive substring of the observed name) never produces
a persisted attendance or camera row, for every event type: main-meeting
join/leave, breakout-room join/leave, camera on/off. -/
theorem calibration_actor_excluded (cfg : Config) (today : String) (s : MeetingState)
    (p : WebhookInput)
    (hbot : is_scout_bot cfg p.participant_name p.participant_email = true) :
    (handle_participant_joined cfg today s p).2 = none
    ∧ (handle_participant_left cfg s p).2 = none
    ∧ (handle_breakout_room_join cfg today s p).2 = none
    ∧ (handle_breakout_room_leave cfg s p).2 = none
    ∧ (handle_camera_event cfg s p true).2 = none
    ∧ (handle_camera_event cfg s p false).2 = none := by
  refine ⟨?_, ?_, ?_, ?_, ?_, ?_⟩
  · simp [handle_participant_joined, hbot]
  · simp [handle_participant_left, hbot]
  · by_cases hm : p.meeting_id = ""
    · simp [handle_breakout_room_join, hm]
    · have hcal := scout_is_calibration cfg
        (s.set_meeting today p.meeting_id p.meeting_uuid)
        p.participant_name p.participant_email hbot
      simp [handle_breakout_room_join, hm, hcal]
  · have hcal := scout_is_calibration cfg s p.participant_name p.participant_email hbot
    simp [handle_breakout_room_leave, hcal]
  · simp [handle_camera_event, hbot]
  · simp [handle_camera_event, hbot]

/-- Concrete run of the C6 exclusion theorem: a participant carrying the
bot name as a substring stores nothing on any event type. -/
theorem calibration_actor_excluded_witness :
    (handle_participant_joined ⟨"Scout Bot", "bot@x.io"⟩ "2026-01-05" initialMeetingState
      ⟨"p1", "HR Scout Bot 2", "", "M1", "", "", 5⟩).2 = none
    ∧ (handle_breakout_room_join ⟨"Scout Bot", "bot@x.io"⟩ "2026-01-05" initialMeetingState
      ⟨"p1", "HR Scout Bot 2", "", "M1", "", "u-9", 5⟩).2 = none
    ∧ (handle_camera_event ⟨"Scout Bot", "bot@x.io"⟩ initialMeetingState
      ⟨"p1", "HR Scout Bot 2", "", "M1", "", "", 5⟩ false).2 = none := by
  refine ⟨?_, ?_, ?_⟩
  · exact (calibration_actor_excluded ⟨"Scout Bot", "bot@x.io"⟩ "2026-01-05"
      initialMeetingState ⟨"p1", "HR Scout Bot 2", "", "M1", "", "", 5⟩ (by decide)).1
  · exact (calibration_actor_excluded ⟨"Scout Bot", "bot@x.io"⟩ "2026-01-05"
      initialMeetingState ⟨"p1", "HR Scout Bot 2", "", "M1", "", "u-9", 5⟩ (by decide)).2.2.1
  · exact (calibration_actor_excluded ⟨"Scout Bot", "bot@x.io"⟩ "2026-01-05"
      initialMeetingState ⟨"p1", "HR Scout Bot 2", "", "M1", "", "", 5⟩ (by decide)).2.2.2.2.2

/-- C9: for every inbound webhook POST, a payload whose routing raises is
still acknowledged with HTTP 200, recognized and unrecognized event types
are acknowledged with HTTP 200, and only an empty or unparseable body is
rejected with a client error (HTTP 400). -/
theorem webhook_error_boundary (cfg : Config) (today : String) (s : MeetingState) :
    (∀ (e : WebhookEvent) (r : Bool), (webhook cfg today s (.payload e r)).2 = 200)
    ∧ (webhook cfg today s .empty).2 = 400
    ∧ (webhook cfg today s .unparseable).2 = 400 := by
  refine ⟨?_, rfl, rfl⟩
  intro e r
  cases e <;> cases r <;> rfl

/-! ### Fallback room name for regular participants -/

theorem is_calibration_participant_uuid (cfg : Config) (s : MeetingState) (u n e : String) :
    is_calibration_participant cfg { s with meeting_uuid := u } n e
      = is_calibration_participant cfg s n e := rfl

theorem get_room_name_uuid (s : MeetingState) (u x : String) :
    ({ s with meeting_uuid := u } : MeetingState).get_room_name x = s.get_room_name x := rfl

/-- C8: a regular (non-calibration) participant's breakout-room join with a
non-empty session identifier that calibration never bound stores a row
whose `room_name` is the synthesized fallback `Room-` plus the first 8
characters of the identifier; the stored room name is never empty. -/
theorem unresolved_room_fallback (cfg : Config) (today : String) (s : MeetingState)
    (p : WebhookInput)
    (hm : p.meeting_id ≠ "") (hu : p.room_uuid ≠ "")
    (hid : s.meeting_id = some p.meeting_id) (hdate : s.meeting_date = some today)
    (hncal : is_calibration_participant cfg s p.participant_name p.participant_email = false)
    (hunbound : s.get_room_name p.room_uuid = none) :
    (handle_breakout_room_join cfg today s p).2 =
      some { event_type := "breakout_room_joined", participant_id := p.participant_id,
             participant_name := p.participant_name,
             participant_email := p.participant_email,
             room_uuid := p.room_uuid, room_name := "Room-" ++ str_take p.room_uuid 8,
             camera_on := false, duration_seconds := none }
    ∧ "Room-" ++ str_take p.room_uuid 8 ≠ "" := by
  obtain ⟨u, hs1⟩ := set_meeting_noreset s today p.meeting_id p.meeting_uuid hid hdate
  have hncal' : is_calibration_participant cfg { s with meeting_uuid := u }
      p.participant_name p.participant_email = false := by
    rw [is_calibration_participant_uuid]; exact hncal
  have hun' : ({ s with meeting_uuid := u } : MeetingState).get_room_name p.room_uuid
      = none := by
    rw [get_room_name_uuid]; exact hunbound
  constructor
  · simp only [handle_breakout_room_join, if_neg hm, hs1, hncal']
    simp [hun', hu]
  · intro hcontra
    have hlen := congrArg String.data hcontra
    simp [str_take] at hlen

/-- Concrete run of the C8 fallback theorem. -/
theorem unresolved_room_fallback_witness :
    (handle_breakout_room_join ⟨"Scout Bot", ""⟩ "2026-01-05"
      (initialMeetingState.set_meeting "2026-01-05" "M1" "")
      ⟨"p-jane", "Jane", "", "M1", "", "zzzz-9999-xxxx", 40⟩).2 =
      some { event_type := "breakout_room_joined", participant_id := "p-jane",
             participant_name := "Jane", participant_email := "",
             room_uuid := "zzzz-9999-xxxx", room_name := "Room-zzzz-999",
             camera_on := false, duration_seconds := none } := by
  have h := unresolved_room_fallback ⟨"Scout Bot", ""⟩ "2026-01-05"
    (initialMeetingState.set_meeting "2026-01-05" "M1" "")
    ⟨"p-jane", "Jane", "", "M1", "", "zzzz-9999-xxxx", 40⟩
    (by decide) (by decide) (by decide) (by decide) (by decide) (by decide)
  exact h.1

/-! ### Camera duration clamp and its persistence coercion (C7) -/

/-- The state of a participant whose camera has been on since time 0 in
meeting `M1`. -/
def c7_state : MeetingState :=
  (initialMeetingState.set_meeting "2026-01-05" "M1" "").update_camera_state "u1" true 0

/-- C7 (code bug): on a camera-off event 25 hours (90000 s) after
`camera_on_since`, the handler discards the duration (sets it to `None`) as
the claim states, and on clock skew it clamps to 0 — but
`validate_and_clean_event` then replaces the absent value by the default 0
for any key ending in `_seconds`, so the warehouse row persists duration 0
rather than NULL; the NULL-preserving branch of `insert_camera_event` is
unreachable. -/
theorem camera_duration_clamp_bug :
    ((handle_camera_event ⟨"Scout Bot", ""⟩ c7_state
        ⟨"u1", "Jane", "", "M1", "", "", 90000⟩ false).2.map
      (fun r => r.duration_seconds)) = some none
    ∧ insert_camera_duration none = some 0
    ∧ insert_camera_duration none ≠ none
    ∧ ((handle_camera_event ⟨"Scout Bot", ""⟩ c7_state
        ⟨"u1", "Jane", "", "M1", "", "", -5⟩ false).2.map
      (fun r => r.duration_seconds)) = some (some 0) := by decide

/-! ### Identifier-variant binding through the webhook path (C2) -/

/-- The end-to-end C2 scenario: `start("M1")`, `declare_move("Room A",
"api-id-1")`, then the calibration-actor room-join webhook with session
identifier `"\x7babc-123\x7d"`. -/
def c2_joined : MeetingState :=
  (handle_breakout_room_join ⟨"Scout Bot", ""⟩ "2026-01-05"
    ((calibration_mapping
        (calibration_start initialMeetingState "2026-01-05" "M1" "" "scout_bot" "" "").1
        "2026-01-05" 0 "M1" "" [("api-id-1", "Room A")]).1)
    ⟨"sb", "Scout Bot", "", "M1", "", "\x7babc-123\x7d", 10⟩).1

/-- C2 counterexample: after the `"\x7babc-123\x7d"` join is matched
against "Room A", the brace-stripped lookup `lookup("abc-123")` returns
absent, not "Room A" — the webhook binding does not write all normalized
variants. -/
theorem bind_variants_counterexample :
    c2_joined.get_room_name "abc-123" = none
    ∧ ¬ (c2_joined.get_room_name "abc-123" = some "Room A") := by decide

/-- C2 (amended): after the calibration-actor join with session identifier
`"\x7babc-123\x7d"` is matched against the declared move for "Room A", the
pending move is marked matched and lookup succeeds for the raw identifier
and for its first-8-character short key, but the brace-stripped variant
`"abc-123"` resolves to absent: `add_webhook_room_mapping` writes only the
raw identifier and its 8-character prefix, not the brace-stripped form. -/
theorem bind_variants_amended :
    c2_joined.pending_room_moves =
      [{ room_name := "Room A", sdk_uuid := "api-id-1", timestamp := 0, matched := true,
         webhook_uuid := some "\x7babc-123\x7d" }]
    ∧ c2_joined.get_room_name "\x7babc-123\x7d" = some "Room A"
    ∧ c2_joined.get_room_name "\x7babc-123" = some "Room A"
    ∧ c2_joined.get_room_name "abc-123" = none := by decide

/-! ### Duplicate calibration-actor join events (C3) -/

/-- The C3 scenario: two declared moves, then the same calibration-actor
join event (session identifier `"u-1"`) delivered twice. -/
def c3_dup : MeetingState :=
  (handle_breakout_room_join ⟨"Scout Bot", ""⟩ "2026-01-05"
    (handle_breakout_room_join ⟨"Scout Bot", ""⟩ "2026-01-05"
      ((calibration_mapping
          (calibration_start initialMeetingState "2026-01-05" "M1" "" "scout_bot" "" "").1
          "2026-01-05" 0 "M1" "" [("a-1", "Room One"), ("a-2", "Room Two")]).1)
      ⟨"sb", "Scout Bot", "", "M1", "", "u-1", 10⟩).1
    ⟨"sb", "Scout Bot", "", "M1", "", "u-1", 20⟩).1

/-- C3 counterexample: the duplicated join for the already-matched
identifier `"u-1"` consumes the later pending move for "Room Two" and
rebinds `"u-1"` from "Room One" to "Room Two" — it is not an idempotent
no-op. -/
theorem duplicate_join_counterexample :
    c3_dup.pending_room_moves =
      [{ room_name := "Room One", sdk_uuid := "a-1", timestamp := 0, matched := true,
         webhook_uuid := some "u-1" },
       { room_name := "Room Two", sdk_uuid := "a-2", timestamp := 0, matched := true,
         webhook_uuid := some "u-1" }]
    ∧ aget c3_dup.uuid_to_name "u-1" = some "Room Two"
    ∧ ¬ (aget c3_dup.uuid_to_name "u-1" = some "Room One") := by decide

/-- C3 (amended): a repeated calibration-actor join event whose session
identifier is already bound is not an idempotent no-op: whenever an
unmatched pending move remains, the event consumes the oldest unmatched
move and rebinds the identifier to that move's room name
(last-write-wins). -/
theorem duplicate_join_rebinds (cfg : Config) (today : String) (s : MeetingState)
    (p : WebhookInput) (m : PendingMove)
    (hmid : p.meeting_id ≠ "")
    (hid : s.meeting_id = some p.meeting_id)
    (hdate : s.meeting_date = some today)
    (hbot : is_scout_bot cfg p.participant_name p.participant_email = true)
    (hfind : find_first_unmatched s.pending_room_moves = some m)
    (hname : m.room_name ≠ "")
    (hu : p.room_uuid ≠ "")
    (hbound : aget s.uuid_to_name p.room_uuid ≠ none) :
    (handle_breakout_room_join cfg today s p).1.pending_room_moves
      = mark_first_unmatched p.room_uuid s.pending_room_moves
    ∧ aget (handle_breakout_room_join cfg today s p).1.uuid_to_name p.room_uuid
      = some m.room_name := by
  obtain ⟨u, hstep⟩ :=
    breakout_join_calib cfg today s p m hmid hid hdate hbot hfind hname hu
  constructor
  · rw [hstep]
  · rw [hstep]
    exact add_webhook_dict_binds _ _ _ hu hname

/-- Concrete run of the C3 amended theorem, at the state reached after the
first `"u-1"` join of the duplicate scenario. -/
theorem duplicate_join_rebinds_witness :
    (handle_breakout_room_join ⟨"Scout Bot", ""⟩ "2026-01-05"
      (handle_breakout_room_join ⟨"Scout Bot", ""⟩ "2026-01-05"
        ((calibration_mapping
            (calibration_start initialMeetingState "2026-01-05" "M1" "" "scout_bot" "" "").1
            "2026-01-05" 0 "M1" "" [("a-1", "Room One"), ("a-2", "Room Two")]).1)
        ⟨"sb", "Scout Bot", "", "M1", "", "u-1", 10⟩).1
      ⟨"sb", "Scout Bot", "", "M1", "", "u-1", 20⟩).1.pending_room_moves
      = mark_first_unmatched "u-1"
          (handle_breakout_room_join ⟨"Scout Bot", ""⟩ "2026-01-05"
            ((calibration_mapping
                (calibration_start initialMeetingState "2026-01-05" "M1" "" "scout_bot" "" "").1
                "2026-01-05" 0 "M1" "" [("a-1", "Room One"), ("a-2", "Room Two")]).1)
            ⟨"sb", "Scout Bot", "", "M1", "", "u-1", 10⟩).1.pending_room_moves := by
  exact (duplicate_join_rebinds ⟨"Scout Bot", ""⟩ "2026-01-05"
    (handle_breakout_room_join ⟨"Scout Bot", ""⟩ "2026-01-05"
      ((calibration_mapping
          (calibration_start initialMeetingState "2026-01-05" "M1" "" "scout_bot" "" "").1
          "2026-01-05" 0 "M1" "" [("a-1", "Room One"), ("a-2", "Room Two")]).1)
      ⟨"sb", "Scout Bot", "", "M1", "", "u-1", 10⟩).1
    ⟨"sb", "Scout Bot", "", "M1", "", "u-1", 20⟩
    { room_name := "Room Two", sdk_uuid := "a-2", timestamp := 0, matched := false,
      webhook_uuid := none }
    (by decide) (by decide) (by decide) (by decide) (by decide) (by decide) (by decide)
    (by decide)).1

/-! ### The camera-state invariant (C10) -/

/-- Invariant of one participant record: `camera_on` holds exactly when
`camera_on_since` is set. -/
def pinv (st : PState) : Prop :=
  st.camera_on = st.camera_on_since.isSome

instance (st : PState) : Decidable (pinv st) := by
  unfold pinv; infer_instance

/-- The invariant over every record of a participant-state map. -/
def listInv (l : List (String × PState)) : Prop :=
  ∀ kv, kv ∈ l → pinv kv.2

/-- The invariant over the participant-state map of a meeting state. -/
def mapInv (s : MeetingState) : Prop :=
  listInv s.participant_states

theorem pinv_fresh : pinv freshPState := rfl

theorem pinv_updateCameraFlag (st : PState) (b : Bool) (t : Int) (h : pinv st) :
    pinv (updateCameraFlag st b t) := by
  unfold updateCameraFlag
  split
  · exact rfl
  · split
    · exact rfl
    · exact h

theorem listInv_nil : listInv [] := by
  intro kv hkv
  simp at hkv

theorem listInv_aset (l : List (String × PState)) (k : String) (v : PState)
    (hl : listInv l) (hv : pinv v) : listInv (aset l k v) := by
  intro kv hkv
  rcases List.mem_cons.mp hkv with h | h
  · rw [h]; exact hv
  · exact hl kv h

theorem listInv_aget (l : List (String × PState)) (k : String) (st : PState)
    (hl : listInv l) (h : aget l k = some st) : pinv st := by
  unfold aget at h
  cases hf : l.find? (fun q => q.1 == k) with
  | none => rw [hf] at h; simp at h
  | some q =>
      rw [hf] at h
      simp at h
      rw [← h]
      exact hl q (List.mem_of_find?_eq_some hf)

theorem mapInv_get_participant (s : MeetingState) (pid : String) (h : mapInv s) :
    mapInv (s.get_participant_state pid).2 ∧ pinv (s.get_participant_state pid).1 := by
  unfold MeetingState.get_participant_state
  cases hq : aget s.participant_states pid with
  | some st => exact ⟨h, listInv_aget _ _ _ h hq⟩
  | none => exact ⟨listInv_aset _ _ _ h pinv_fresh, pinv_fresh⟩

theorem mapInv_update_camera (s : MeetingState) (pid : String) (b : Bool) (t : Int)
    (h : mapInv s) : mapInv (s.update_camera_state pid b t) := by
  obtain ⟨h2, h1⟩ := mapInv_get_participant s pid h
  unfold MeetingState.update_camera_state
  cases hq : s.get_participant_state pid with
  | mk st s1 =>
      rw [hq] at h1 h2
      exact listInv_aset _ _ _ h2 (pinv_updateCameraFlag st b t h1)

theorem mapInv_mark_joined (s : MeetingState) (pid : String) (t : Int)
    (h : mapInv s) : mapInv (s.mark_joined pid t) := by
  obtain ⟨h2, h1⟩ := mapInv_get_participant s pid h
  unfold MeetingState.mark_joined
  cases hq : s.get_participant_state pid with
  | mk st s1 =>
      rw [hq] at h1 h2
      exact listInv_aset _ _ _ h2 h1

theorem mapInv_set_room (s : MeetingState) (pid r : String)
    (h : mapInv s) : mapInv (s.set_participant_room pid r) := by
  obtain ⟨h2, h1⟩ := mapInv_get_participant s pid h
  unfold MeetingState.set_participant_room
  cases hq : s.get_participant_state pid with
  | mk st s1 =>
      rw [hq] at h1 h2
      exact listInv_aset _ _ _ h2 h1

theorem mapInv_set_meeting (s : MeetingState) (today mid u : String)
    (h : mapInv s) : mapInv (s.set_meeting today mid u) := by
  simp only [MeetingState.set_meeting]
  split
  · split <;> exact listInv_nil
  · split <;> exact h

theorem calibration_join_step_states (s : MeetingState) (u : String) :
    (calibration_join_step s u).participant_states = s.participant_states := by
  simp only [calibration_join_step, MeetingState.add_webhook_room_mapping]
  repeat' split
  all_goals rfl

/-- Every handler preserves the participant-map camera invariant. -/
theorem mapInv_handle_event (cfg : Config) (today : String) (s : MeetingState)
    (e : WebhookEvent) (h : mapInv s) : mapInv (handle_event cfg today s e).1 := by
  cases e with
  | urlValidation => exact h
  | meetingEnded => exact h
  | unrecognized t => exact h
  | participantJoined p =>
      show mapInv (handle_participant_joined cfg today s p).1
      simp only [handle_participant_joined]
      split
      · exact h
      · split
        · exact h
        · exact mapInv_mark_joined _ _ _ (mapInv_set_meeting _ _ _ _ h)
  | participantLeft p =>
      show mapInv (handle_participant_left cfg s p).1
      simp only [handle_participant_left]
      split
      · exact h
      · split <;> exact h
  | breakoutJoin p =>
      show mapInv (handle_breakout_room_join cfg today s p).1
      simp only [handle_breakout_room_join]
      split
      · exact h
      · split
        · show listInv (calibration_join_step _ _).participant_states
          rw [calibration_join_step_states]
          exact mapInv_set_meeting _ _ _ _ h
        · exact mapInv_set_room _ _ _ (mapInv_set_meeting _ _ _ _ h)
  | breakoutLeave p =>
      show mapInv (handle_breakout_room_leave cfg s p).1
      simp only [handle_breakout_room_leave]
      split
      · exact h
      · split <;> exact h
  | videoOn p =>
      show mapInv (handle_camera_event cfg s p true).1
      simp only [handle_camera_event]
      split
      · exact h
      · split
        · exact h
        · exact mapInv_update_camera (s.get_participant_state p.participant_id).2
            p.participant_id true p.event_time
            (mapInv_get_participant s p.participant_id h).1
  | videoOff p =>
      show mapInv (handle_camera_event cfg s p false).1
      simp only [handle_camera_event]
      split
      · exact h
      · split
        · exact h
        · exact mapInv_update_camera (s.get_participant_state p.participant_id).2
            p.participant_id false p.event_time
            (mapInv_get_participant s p.participant_id h).1

/-- C10: `camera_on` holds exactly when `camera_on_since` is set.  A fresh
participant record satisfies the invariant with the camera off and no
timestamp; the `update_camera_state` transition records `camera_on_since`
exactly on a false-to-true flip, clears it exactly on a true-to-false flip,
and is the identity when the flag does not change; and every routed webhook
event preserves the invariant across the whole participant-state map. -/
theorem camera_invariant (st : PState) (b : Bool) (t : Int)
    (cfg : Config) (today : String) (s : MeetingState) (e : WebhookEvent) :
    (pinv freshPState ∧ freshPState.camera_on = false
      ∧ freshPState.camera_on_since = none)
    ∧ (pinv st → pinv (updateCameraFlag st b t))
    ∧ (st.camera_on = false → (updateCameraFlag st true t).camera_on_since = some t)
    ∧ (st.camera_on = true → (updateCameraFlag st false t).camera_on_since = none)
    ∧ (b = st.camera_on → updateCameraFlag st b t = st)
    ∧ (mapInv s → mapInv (handle_event cfg today s e).1) := by
  refine ⟨⟨pinv_fresh, rfl, rfl⟩, pinv_updateCameraFlag st b t, ?_, ?_, ?_,
    mapInv_handle_event cfg today s e⟩
  · intro hc
    simp [updateCameraFlag, hc]
  · intro hc
    simp [updateCameraFlag, hc]
  · intro hb
    subst hb
    cases hc : st.camera_on <;> simp [updateCameraFlag, hc]

/-- Concrete run of the C10 camera-invariant theorem. -/
theorem camera_invariant_witness :
    pinv (updateCameraFlag freshPState true 5)
    ∧ (updateCameraFlag freshPState true 5).camera_on_since = some 5
    ∧ (updateCameraFlag (updateCameraFlag freshPState true 5) false 9).camera_on_since = none
    ∧ mapInv (handle_event ⟨"Scout Bot", ""⟩ "2026-01-05" initialMeetingState
        (.videoOn ⟨"u1", "Jane", "", "M1", "", "", 5⟩)).1 := by
  refine ⟨?_, ?_, ?_, ?_⟩
  · exact (camera_invariant freshPState true 5 ⟨"Scout Bot", ""⟩ "2026-01-05"
      initialMeetingState .meetingEnded).2.1 (by decide)
  · exact (camera_invariant freshPState true 5 ⟨"Scout Bot", ""⟩ "2026-01-05"
      initialMeetingState .meetingEnded).2.2.1 (by decide)
  · exact (camera_invariant (updateCameraFlag freshPState true 5) false 9 ⟨"Scout Bot", ""⟩
      "2026-01-05" initialMeetingState .meetingEnded).2.2.2.1 (by decide)
  · exact (camera_invariant freshPState true 5 ⟨"Scout Bot", ""⟩ "2026-01-05"
      initialMeetingState (.videoOn ⟨"u1", "Jane", "", "M1", "", "", 5⟩)).2.2.2.2.2
      (by intro kv hkv; simp [initialMeetingState, MeetingState.reset] at hkv)

end ZoomTracker
